import Mathlib

/-!
Shallow embedding of the browser audio-looper's core state logic:
the per-track clip/loop-region state, the waveform drag-selection
handlers, the parameter-knob drag handlers, the per-track audio node
graph construction, the master recording controller and the session
track list. Times, gains and pointer coordinates are rationals;
asynchronous decode results are `Option Clip`; handlers that log to the
console return the emitted messages alongside the new state.
-/

/-- A decoded audio buffer, abstracted to the one attribute the control
logic reads: its duration in seconds. -/
structure Clip where
  duration : ℚ
deriving DecidableEq, Repr

namespace Track

/-- The per-track state touched by clip loading and region selection:
`audioBuffer`, `isLoading`, `loopStart`, `loopEnd`. -/
structure State where
  audioBuffer : Option Clip
  isLoading : Bool
  loopStart : ℚ
  loopEnd : ℚ
deriving DecidableEq, Repr

/-- The file-upload reader callback: on a successful decode it stores the
new buffer, sets `loopEnd` to the new duration and clears `isLoading`;
on a decode error it only logs and clears `isLoading`. Returns the new
state and the console messages emitted. -/
def handleFileUpload (st : State) (decoded : Option Clip) : State × List String :=
  match decoded with
  | some buf =>
    ({ st with audioBuffer := some buf, loopEnd := buf.duration, isLoading := false }, [])
  | none => ({ st with isLoading := false }, ["Error decoding audio data:"])

/-- The track recorder's onstop callback: with zero captured chunks it
only warns; otherwise the concatenated blob is decoded, and on success
the buffer is replaced and `loopEnd` set to the new duration. -/
def recorderOnStop (st : State) (chunks : List ℕ) (decoded : Option Clip) :
    State × List String :=
  if chunks.length = 0 then (st, ["No data recorded"])
  else
    match decoded with
    | some buf => ({ st with audioBuffer := some buf, loopEnd := buf.duration }, [])
    | none => (st, ["Error decoding recorded audio:"])

/-- The region-change callback handed to the waveform display: it stores
the given start and end directly. -/
def handleLoopRegionChange (st : State) (s e : ℚ) : State :=
  { st with loopStart := s, loopEnd := e }

end Track

namespace Waveform

/-- The waveform display's drag state: the `isDragging` flag and the
optional drag start/end times. -/
structure DragState where
  isDragging : Bool
  dragStart : Option ℚ
  dragEnd : Option ℚ
deriving DecidableEq, Repr

/-- Maps a pointer's `clientX` to a time by the linear pixel-to-duration
scale of the canvas. -/
def getPositionFromEvent (canvasWidth duration clientX rectLeft : ℚ) : ℚ :=
  (clientX - rectLeft) / canvasWidth * duration

/-- The mouse-up handler: while dragging with both endpoints recorded, it
commits `(min, max)` of the drag endpoints if they differ by more than
0.01 s, else it emits nothing. `some r` is the `onRegionChange` call. -/
def handleMouseUp (d : DragState) : Option (ℚ × ℚ) :=
  match d.isDragging, d.dragStart, d.dragEnd with
  | true, some ds, some de =>
    if |ds - de| > 1/100 then some (min ds de, max ds de) else none
  | _, _, _ => none

/-- The touch-end handler: textually the same logic as `handleMouseUp`. -/
def handleTouchEnd (d : DragState) : Option (ℚ × ℚ) :=
  match d.isDragging, d.dragStart, d.dragEnd with
  | true, some ds, some de =>
    if |ds - de| > 1/100 then some (min ds de, max ds de) else none
  | _, _, _ => none

end Waveform

namespace Knob

/-- JavaScript `Math.round`: ties round toward positive infinity. -/
def jsRound (x : ℚ) : ℤ := ⌊x + 1/2⌋

/-- The knob's document-level mousemove handler: vertical delta, fixed
sensitivity 200, clamp to `[minV, maxV]` with `max/min`, then round to a
multiple of `step` when `step ≠ 0`. Returns the value passed to
`onChange`. -/
def handleMouseMove (minV maxV step startValue startY clientY : ℚ) : ℚ :=
  let deltaY := clientY - startY
  let sensitivity : ℚ := 200
  let newValue := startValue - deltaY / sensitivity * (maxV - minV)
  let clamped := max minV (min maxV newValue)
  if step ≠ 0 then (jsRound (clamped / step) : ℚ) * step else clamped

/-- The touch delta: the vertical movement when strictly larger in
magnitude, else the horizontal movement negated. -/
def touchDelta (deltaY deltaX : ℚ) : ℚ :=
  if |deltaY| > |deltaX| then deltaY else -deltaX

/-- The knob's document-level touchmove handler: same computation as the
mouse handler but with `touchDelta` of both axes. -/
def handleTouchMove (minV maxV step startValue startY startX clientY clientX : ℚ) : ℚ :=
  let deltaY := clientY - startY
  let deltaX := clientX - startX
  let delta := touchDelta deltaY deltaX
  let sensitivity : ℚ := 200
  let newValue := startValue - delta / sensitivity * (maxV - minV)
  let clamped := max minV (min maxV newValue)
  if step ≠ 0 then (jsRound (clamped / step) : ℚ) * step else clamped

/-- Modelled from the spec: clamp `x` into `[lo, hi]`. -/
def specClamp (x lo hi : ℚ) : ℚ :=
  if x < lo then lo else if hi < x then hi else x

/-- Modelled from the spec: round `x` to the nearest multiple of `step`
when `step ≠ 0` (ties toward positive infinity, as the platform rounds). -/
def specRoundToMultiple (step x : ℚ) : ℚ :=
  if step ≠ 0 then (⌊x / step + 1/2⌋ : ℚ) * step else x

/-- Modelled from the spec: `newValue = clamp(startValue − delta/200 *
(max − min), min, max)`, then rounded to the nearest multiple of `step`. -/
def specNewValue (minV maxV step startValue delta : ℚ) : ℚ :=
  specRoundToMultiple step (specClamp (startValue - delta / 200 * (maxV - minV)) minV maxV)

end Knob

namespace Graph

/-- The audio nodes `setupAudioNodes` can create, one tag per source
variable, plus the two shared output destinations. -/
inductive NodeId where
  | source
  | trackGain
  | filter
  | delay
  | delayGain
  | reverb
  | reverbGain
  | dryGain
  | destination
  | recordingDest
deriving DecidableEq, Repr

/-- A rebuilt per-track graph: the nodes created, the `connect` edges, and
the parameter values written into the nodes. -/
structure AudioGraph where
  nodes : List NodeId
  edges : List (NodeId × NodeId)
  filterFreqValue : ℚ
  delayTimeValue : ℚ
  delayGainValue : ℚ
  reverbGainValue : ℚ
  dryGainValue : ℚ
deriving DecidableEq, Repr

/-- The track's `setupAudioNodes`, as the graph it builds: source, track
gain, filter, delay and delay-gain nodes are created unconditionally; a
convolver only when the impulse exists and `reverbAmount > 0`; then the
reverb-gain and dry-gain nodes. Edges follow the source's `connect`
calls, the delay branch wired only when `delayAmount > 0` and the reverb
branch only when the convolver exists and `reverbAmount > 0`; the track
gain fans out to the speakers and, when present, the recording
destination. -/
def setupAudioNodes (filterFreq delayAmount reverbAmount : ℚ)
    (hasImpulse hasDestination : Bool) : AudioGraph :=
  let reverbCreated : Bool := hasImpulse && decide (0 < reverbAmount)
  let nodes :=
    [NodeId.source, NodeId.trackGain, NodeId.filter, NodeId.delay, NodeId.delayGain]
      ++ (if reverbCreated then [NodeId.reverb] else [])
      ++ [NodeId.reverbGain, NodeId.dryGain]
  let edges :=
    [(NodeId.source, NodeId.filter), (NodeId.filter, NodeId.trackGain)]
      ++ (if 0 < delayAmount then
            [(NodeId.filter, NodeId.delay), (NodeId.delay, NodeId.delayGain),
              (NodeId.delayGain, NodeId.trackGain)]
          else [])
      ++ (if reverbCreated && decide (0 < reverbAmount) then
            [(NodeId.filter, NodeId.reverb), (NodeId.reverb, NodeId.reverbGain),
              (NodeId.reverbGain, NodeId.trackGain)]
          else [])
      ++ [(NodeId.trackGain, NodeId.destination)]
      ++ (if hasDestination then [(NodeId.trackGain, NodeId.recordingDest)] else [])
  { nodes := nodes
    edges := edges
    filterFreqValue := filterFreq
    delayTimeValue := delayAmount
    delayGainValue := if 0 < delayAmount then 1/2 else 0
    reverbGainValue := reverbAmount
    dryGainValue := 1 - max reverbAmount 0 }

end Graph

namespace Master

/-- The master controller's state: context/destination/recorder presence,
the transport and recording flags, the timer value, the captured chunks
(as byte sizes) and the finished blob. -/
structure State where
  hasContext : Bool
  hasDestination : Bool
  hasRecorder : Bool
  isPlaying : Bool
  isRecording : Bool
  recordingTime : ℕ
  recordedChunks : List ℕ
  recordedBlob : Option (List ℕ)
deriving DecidableEq, Repr

/-- `startMasterRecording`: bails out without a context or destination or
while already recording; otherwise resets the capture state, creates the
recorder, starts it and auto-starts playback if stopped. -/
def startMasterRecording (s : State) : State :=
  if !s.hasContext || !s.hasDestination || s.isRecording then s
  else
    let s1 := { s with recordedChunks := [], recordingTime := 0, recordedBlob := none }
    let s2 := { s1 with hasRecorder := true, isRecording := true }
    if !s2.isPlaying then { s2 with isPlaying := true } else s2

/-- The master recorder's onstop handler: with zero chunks it only warns;
otherwise it packages the chunks into the recorded blob. -/
def recorderOnStop (s : State) : State × List String :=
  if s.recordedChunks.length = 0 then (s, ["No data recorded"])
  else ({ s with recordedBlob := some s.recordedChunks }, [])

/-- `stopMasterRecording`: bails out without a recorder or while not
recording; otherwise stops the recorder and clears the flag. -/
def stopMasterRecording (s : State) : State :=
  if !s.hasRecorder || !s.isRecording then s
  else { s with isRecording := false }

end Master

namespace Session

/-- One entry of the session's track list. -/
structure SessionTrack where
  id : ℕ
  audioBuffer : Option Clip
deriving DecidableEq, Repr

/-- `addTrack`: appends a fresh empty track only while fewer than 16
tracks exist. -/
def addTrack (tracks : List SessionTrack) (newId : ℕ) : List SessionTrack :=
  if tracks.length < 16 then tracks ++ [{ id := newId, audioBuffer := none }] else tracks

end Session

/-- C1: at the concrete failing input — prior region [1, 3] over a 4 s clip,
then a successful decode of a 2 s clip — both the upload handler and the
record-stop handler set only `loopEnd`, leaving `loopStart` at 1, so the
region becomes [1, 2] rather than resetting to [0, 2]. -/
theorem loadClip_does_not_reset_loopStart :
    (Track.handleFileUpload ⟨some ⟨4⟩, true, 1, 3⟩ (some ⟨2⟩)).1 = ⟨some ⟨2⟩, false, 1, 2⟩ ∧
    (Track.recorderOnStop ⟨some ⟨4⟩, false, 1, 3⟩ [100] (some ⟨2⟩)).1 = ⟨some ⟨2⟩, false, 1, 2⟩ ∧
    ¬ (Track.handleFileUpload ⟨some ⟨4⟩, true, 1, 3⟩ (some ⟨2⟩)).1.loopStart = 0 := by
  refine ⟨rfl, rfl, ?_⟩
  norm_num [Track.handleFileUpload]

/-- C2 counterexample: with a 4 s clip loaded, committing the inverted and
out-of-range pair (5, 3) stores it verbatim — `loopStart` = 5, `loopEnd` = 3 —
so the stored region violates `start < end` (and 5 exceeds the duration 4). -/
theorem setLoopRegion_stores_inverted_input :
    (Track.handleLoopRegionChange ⟨some ⟨4⟩, false, 0, 4⟩ 5 3).loopStart = 5 ∧
    (Track.handleLoopRegionChange ⟨some ⟨4⟩, false, 0, 4⟩ 5 3).loopEnd = 3 ∧
    ¬ ((Track.handleLoopRegionChange ⟨some ⟨4⟩, false, 0, 4⟩ 5 3).loopStart <
        (Track.handleLoopRegionChange ⟨some ⟨4⟩, false, 0, 4⟩ 5 3).loopEnd) := by
  refine ⟨rfl, rfl, ?_⟩
  norm_num [Track.handleLoopRegionChange]

/-- C2 (amended): `handleLoopRegionChange` stores the given start and end
exactly as passed, performing no clamping or rejection and touching nothing
else; consequently the stored region satisfies `0 ≤ start < end ≤ d`
precisely when the inputs already do. -/
theorem setLoopRegion_stores_as_given (st : Track.State) (s e : ℚ) :
    (Track.handleLoopRegionChange st s e).loopStart = s ∧
    (Track.handleLoopRegionChange st s e).loopEnd = e ∧
    (Track.handleLoopRegionChange st s e).audioBuffer = st.audioBuffer ∧
    (∀ d : ℚ,
      (0 ≤ (Track.handleLoopRegionChange st s e).loopStart ∧
        (Track.handleLoopRegionChange st s e).loopStart <
          (Track.handleLoopRegionChange st s e).loopEnd ∧
        (Track.handleLoopRegionChange st s e).loopEnd ≤ d) ↔
      (0 ≤ s ∧ s < e ∧ e ≤ d)) :=
  ⟨rfl, rfl, rfl, fun _ => Iff.rfl⟩

/-- C7: a failed decode in the upload handler leaves the prior clip and loop
region untouched, clears the loading flag and surfaces exactly the decode
diagnostic. -/
theorem loadClip_decode_failure_recovers (st : Track.State) :
    (Track.handleFileUpload st none).1.audioBuffer = st.audioBuffer ∧
    (Track.handleFileUpload st none).1.loopStart = st.loopStart ∧
    (Track.handleFileUpload st none).1.loopEnd = st.loopEnd ∧
    (Track.handleFileUpload st none).1.isLoading = false ∧
    (Track.handleFileUpload st none).2 = ["Error decoding audio data:"] :=
  ⟨rfl, rfl, rfl, rfl, rfl⟩

/-- C8: starting the master recording while already recording changes no
state; the recorder's onstop with zero captured chunks returns the state
unchanged with only the warning, and in particular stopping after zero
chunks creates no blob. -/
theorem master_recording_edge_cases :
    (∀ s : Master.State,
      Master.startMasterRecording { s with isRecording := true } =
        { s with isRecording := true }) ∧
    (∀ s : Master.State,
      Master.recorderOnStop { s with recordedChunks := [] } =
        ({ s with recordedChunks := [] }, ["No data recorded"])) ∧
    (∀ s : Master.State,
      (Master.recorderOnStop
          (Master.stopMasterRecording { s with recordedChunks := [] })).1.recordedBlob =
        s.recordedBlob) := by
  refine ⟨fun s => ?_, fun s => ?_, fun s => ?_⟩
  · simp [Master.startMasterRecording]
  · simp [Master.recorderOnStop]
  · by_cases h : (!s.hasRecorder || !s.isRecording) = true <;>
      simp [Master.stopMasterRecording, Master.recorderOnStop, h]

/-- C9: `addTrack` appends a fresh empty track exactly while fewer than 16
tracks exist, leaves the list unchanged at or above 16, and therefore
preserves the bound of 16 tracks. -/
theorem addTrack_cap (ts : List Session.SessionTrack) (newId : ℕ) :
    (ts.length < 16 →
      Session.addTrack ts newId = ts ++ [{ id := newId, audioBuffer := none }]) ∧
    (16 ≤ ts.length → Session.addTrack ts newId = ts) ∧
    (ts.length ≤ 16 → (Session.addTrack ts newId).length ≤ 16) := by
  refine ⟨fun h => ?_, fun h => ?_, fun h => ?_⟩
  · simp [Session.addTrack, h]
  · simp [Session.addTrack, Nat.not_lt.mpr h]
  · by_cases h2 : ts.length < 16 <;> simp [Session.addTrack, h2] <;> omega

/-- C6: on releasing a drag (mouse or touch) with both endpoints recorded,
a movement of at most 0.01 s emits no region-change notification, and a
movement of more than 0.01 s commits exactly [min, max] of the endpoints. -/
theorem waveform_commit_threshold (d : Waveform.DragState) (ds de : ℚ)
    (h1 : d.isDragging = true) (h2 : d.dragStart = some ds) (h3 : d.dragEnd = some de) :
    (|ds - de| ≤ 1/100 →
      Waveform.handleMouseUp d = none ∧ Waveform.handleTouchEnd d = none) ∧
    (1/100 < |ds - de| →
      Waveform.handleMouseUp d = some (min ds de, max ds de) ∧
      Waveform.handleTouchEnd d = some (min ds de, max ds de)) := by
  obtain ⟨dragging, dstart, dend⟩ := d
  simp only at h1 h2 h3
  subst h1 h2 h3
  constructor
  · intro h
    constructor <;>
      · simp only [Waveform.handleMouseUp, Waveform.handleTouchEnd]
        rw [if_neg (not_lt.mpr h)]
  · intro h
    constructor <;>
      · simp only [Waveform.handleMouseUp, Waveform.handleTouchEnd]
        rw [if_pos h]

/-- C6 witness: the boundary drag from 0 s to 0.011 s exceeds the 0.01 s
threshold, so the mouse-up handler commits the region (0, 0.011). -/
theorem waveform_commit_threshold_witness :
    Waveform.handleMouseUp ⟨true, some 0, some (11/1000)⟩ = some (0, 11/1000) := by
  have h := ((waveform_commit_threshold ⟨true, some 0, some (11/1000)⟩ 0 (11/1000)
      rfl rfl rfl).2 (by norm_num [abs_of_pos])).1
  rw [h]
  norm_num [min_def, max_def]

/-- C3 counterexample: rebuilding with delayMix = 0 and reverbMix = 0 still
instantiates a delay node — it is created unconditionally and merely left
unconnected — refuting "no delay node is instantiated". -/
theorem delay_node_instantiated_at_zero_mix :
    Graph.NodeId.delay ∈ (Graph.setupAudioNodes 20000 0 0 true true).nodes := by
  decide

/-- C3 (amended): with both mixes at 0 the connection set is exactly the dry
path (source → filter → track gain → speakers, plus the recording bus when
present) and no convolver node is instantiated, though the delay node and the
helper gain nodes are still created; in general the delay branch is wired
precisely when delayMix > 0 and the reverb branch precisely when the impulse
exists and reverbMix > 0. -/
theorem graph_branches_conditional :
    (∀ f : ℚ, ∀ imp dest : Bool,
      (Graph.setupAudioNodes f 0 0 imp dest).edges =
        [(Graph.NodeId.source, Graph.NodeId.filter),
          (Graph.NodeId.filter, Graph.NodeId.trackGain),
          (Graph.NodeId.trackGain, Graph.NodeId.destination)] ++
          (if dest then [(Graph.NodeId.trackGain, Graph.NodeId.recordingDest)] else []) ∧
      Graph.NodeId.reverb ∉ (Graph.setupAudioNodes f 0 0 imp dest).nodes) ∧
    (∀ f d r : ℚ, ∀ imp dest : Bool,
      ((Graph.NodeId.filter, Graph.NodeId.delay) ∈
          (Graph.setupAudioNodes f d r imp dest).edges ↔ 0 < d) ∧
      ((Graph.NodeId.filter, Graph.NodeId.reverb) ∈
          (Graph.setupAudioNodes f d r imp dest).edges ↔ (imp = true ∧ 0 < r))) := by
  constructor
  · intro f imp dest
    constructor
    · cases dest <;> simp [Graph.setupAudioNodes]
    · cases imp <;> simp [Graph.setupAudioNodes]
  · intro f d r imp dest
    constructor
    · cases imp <;> cases dest <;> by_cases hd : 0 < d <;> by_cases hr : 0 < r <;>
        simp [Graph.setupAudioNodes, hd, hr]
    · cases imp <;> cases dest <;> by_cases hd : 0 < d <;> by_cases hr : 0 < r <;>
        simp [Graph.setupAudioNodes, hd, hr]

/-- C10: every rebuilt graph creates the dry-gain node with gain value
1 − max(reverbMix, 0), yet no connection touches it; the dry path instead
runs from the filter straight into the track gain for every parameter
setting, so the audible dry level is independent of both mixes. -/
theorem dryGain_never_connected (f d r : ℚ) (imp dest : Bool) :
    Graph.NodeId.dryGain ∈ (Graph.setupAudioNodes f d r imp dest).nodes ∧
    (Graph.setupAudioNodes f d r imp dest).dryGainValue = 1 - max r 0 ∧
    (∀ p ∈ (Graph.setupAudioNodes f d r imp dest).edges,
      p.1 ≠ Graph.NodeId.dryGain ∧ p.2 ≠ Graph.NodeId.dryGain) ∧
    (Graph.NodeId.filter, Graph.NodeId.trackGain) ∈
      (Graph.setupAudioNodes f d r imp dest).edges := by
  refine ⟨?_, rfl, ?_, ?_⟩
  · cases imp <;> by_cases hr : 0 < r <;> simp [Graph.setupAudioNodes, hr]
  · intro p hp
    cases imp <;> cases dest <;> by_cases hd : 0 < d <;> by_cases hr : 0 < r <;>
      simp [Graph.setupAudioNodes, hd, hr] at hp <;>
      rcases hp with rfl | rfl | rfl | rfl | rfl | rfl | rfl | rfl | rfl | rfl <;> simp
  · cases imp <;> cases dest <;> by_cases hd : 0 < d <;> by_cases hr : 0 < r <;>
      simp [Graph.setupAudioNodes, hd, hr]

/-- The platform rounding never exceeds its input by more than half. -/
theorem jsRound_le (x : ℚ) : (Knob.jsRound x : ℚ) ≤ x + 1/2 := by
  unfold Knob.jsRound
  exact_mod_cast Int.floor_le (x + 1/2)

/-- The platform rounding never falls short of its input by half or more. -/
theorem sub_half_lt_jsRound (x : ℚ) : x - 1/2 < (Knob.jsRound x : ℚ) := by
  unfold Knob.jsRound
  have h : (x + 1/2) - 1 < ((⌊x + 1/2⌋ : ℤ) : ℚ) := Int.sub_one_lt_floor (x + 1/2)
  linarith

/-- The `max lo (min hi x)` clamp lands in `[lo, hi]` whenever `lo ≤ hi`. -/
theorem clamp_bounds (lo hi x : ℚ) (h : lo ≤ hi) :
    lo ≤ max lo (min hi x) ∧ max lo (min hi x) ≤ hi :=
  ⟨le_max_left _ _, max_le h (min_le_left _ _)⟩

/-- Shared bound for both knob handlers: clamp into `[lo, hi]`, then round
to a multiple of `step`; the result stays within half a step of the range. -/
theorem knob_emit_bounds (lo hi step x : ℚ) (hlh : lo ≤ hi) (hs : 0 ≤ step) :
    lo - step/2 ≤
      (if step ≠ 0 then (Knob.jsRound (max lo (min hi x) / step) : ℚ) * step
        else max lo (min hi x)) ∧
    (if step ≠ 0 then (Knob.jsRound (max lo (min hi x) / step) : ℚ) * step
        else max lo (min hi x)) ≤ hi + step/2 := by
  obtain ⟨hc1, hc2⟩ := clamp_bounds lo hi x hlh
  set c := max lo (min hi x) with hc
  by_cases h : step = (0:ℚ)
  · subst h
    simp only [ne_eq, not_true_eq_false, if_false]
    constructor <;> linarith
  · have hstep : 0 < step := lt_of_le_of_ne hs (Ne.symm h)
    rw [if_pos h]
    have hub : (Knob.jsRound (c / step) : ℚ) ≤ c / step + 1/2 := jsRound_le _
    have hlb : c / step - 1/2 < (Knob.jsRound (c / step) : ℚ) := sub_half_lt_jsRound _
    have e1 : (c / step + 1/2) * step = c + step/2 := by field_simp; ring
    have e2 : (c / step - 1/2) * step = c - step/2 := by field_simp; ring
    constructor
    · have h3 : (c / step - 1/2) * step < (Knob.jsRound (c / step) : ℚ) * step :=
        mul_lt_mul_of_pos_right hlb hstep
      rw [e2] at h3
      linarith
    · have h4 : (Knob.jsRound (c / step) : ℚ) * step ≤ (c / step + 1/2) * step :=
        mul_le_mul_of_nonneg_right hub hs
      rw [e1] at h4
      linarith

/-- C4 counterexample: with the valid configuration min = 0, max = 10,
step = 4 (min < max, step ≥ 0), a one-pixel upward drag from value 10 clamps
to 10 but then rounds to 12, so the emitted value escapes [min, max]. -/
theorem knob_value_escapes_range :
    Knob.handleMouseMove 0 10 4 10 0 (-1) = 12 ∧
    ¬ (Knob.handleMouseMove 0 10 4 10 0 (-1) ≤ 10) := by
  have h : Knob.handleMouseMove 0 10 4 10 0 (-1) = 12 := by
    norm_num [Knob.handleMouseMove, Knob.jsRound, min_def, max_def]
  refine ⟨h, ?_⟩
  rw [h]
  norm_num

/-- C4 (amended): for every configuration with min < max and step ≥ 0, the
value emitted by a mouse or touch drag move lies within
[min − step/2, max + step/2]; when step = 0 it lies exactly within
[min, max]. Rounding after the clamp can overshoot by up to half a step. -/
theorem knob_value_bounds (minV maxV step sv sy sx cy cx : ℚ)
    (hlh : minV < maxV) (hs : 0 ≤ step) :
    (step = 0 → minV ≤ Knob.handleMouseMove minV maxV step sv sy cy ∧
      Knob.handleMouseMove minV maxV step sv sy cy ≤ maxV) ∧
    (minV - step/2 ≤ Knob.handleMouseMove minV maxV step sv sy cy ∧
      Knob.handleMouseMove minV maxV step sv sy cy ≤ maxV + step/2) ∧
    (minV - step/2 ≤ Knob.handleTouchMove minV maxV step sv sy sx cy cx ∧
      Knob.handleTouchMove minV maxV step sv sy sx cy cx ≤ maxV + step/2) := by
  have hb := knob_emit_bounds minV maxV step
    (sv - (cy - sy) / 200 * (maxV - minV)) hlh.le hs
  have ht := knob_emit_bounds minV maxV step
    (sv - Knob.touchDelta (cy - sy) (cx - sx) / 200 * (maxV - minV)) hlh.le hs
  refine ⟨fun h0 => ?_, hb, ht⟩
  subst h0
  have hc := clamp_bounds minV maxV (sv - (cy - sy) / 200 * (maxV - minV)) hlh.le
  simpa [Knob.handleMouseMove] using hc

/-- C4 witness: at the configuration (min 0, max 10, step 4) the emitted
value of the counterexample drag stays within the amended bounds
[0 − 4/2, 10 + 4/2]. -/
theorem knob_value_bounds_witness :
    0 - (4:ℚ)/2 ≤ Knob.handleMouseMove 0 10 4 10 0 (-1) ∧
    Knob.handleMouseMove 0 10 4 10 0 (-1) ≤ 10 + (4:ℚ)/2 :=
  (knob_value_bounds 0 10 4 10 0 0 (-1) 0 (by norm_num) (by norm_num)).2.1

/-- The spec's clamp agrees with the source's `max lo (min hi x)` clamp on
every sane range. -/
theorem specClamp_eq_clamp (x lo hi : ℚ) (h : lo ≤ hi) :
    Knob.specClamp x lo hi = max lo (min hi x) := by
  unfold Knob.specClamp
  rcases lt_or_le x lo with h1 | h1
  · rw [if_pos h1]
    have hm : min hi x ≤ lo := le_of_lt (lt_of_le_of_lt (min_le_right _ _) h1)
    rw [max_eq_left hm]
  · rw [if_neg (not_lt.mpr h1)]
    rcases lt_or_le hi x with h2 | h2
    · rw [if_pos h2, min_eq_left h2.le, max_eq_right h]
    · rw [if_neg (not_lt.mpr h2), min_eq_right h2, max_eq_right h1]

/-- C5: the mouse handler computes exactly the spec formula — clamp
(startValue − deltaY/200·(max − min)) into [min, max], then round to the
nearest multiple of step when step ≠ 0 — and the touch handler computes the
same formula at the touch delta, which is the strictly-larger-magnitude axis
with the horizontal one inverted; at the spec's instance (min 60, max 200,
step 1) a drag whose unrounded value is 137.6 emits 138. -/
theorem knob_matches_spec_formula :
    (∀ minV maxV step sv sy cy : ℚ, minV ≤ maxV →
      Knob.handleMouseMove minV maxV step sv sy cy =
        Knob.specNewValue minV maxV step sv (cy - sy)) ∧
    (∀ minV maxV step sv sy sx cy cx : ℚ, minV ≤ maxV →
      Knob.handleTouchMove minV maxV step sv sy sx cy cx =
        Knob.specNewValue minV maxV step sv (Knob.touchDelta (cy - sy) (cx - sx))) ∧
    (∀ dy dx : ℚ, (|dx| < |dy| → Knob.touchDelta dy dx = dy) ∧
      (|dy| ≤ |dx| → Knob.touchDelta dy dx = -dx)) ∧
    ((130 : ℚ) - (-76/7 - 0) / 200 * (200 - 60) = 137.6 ∧
      Knob.handleMouseMove 60 200 1 130 0 (-76/7) = 138) := by
  refine ⟨?_, ?_, ?_, ?_, ?_⟩
  · intro minV maxV step sv sy cy h
    unfold Knob.handleMouseMove Knob.specNewValue Knob.specRoundToMultiple Knob.jsRound
    rw [specClamp_eq_clamp _ _ _ h]
  · intro minV maxV step sv sy sx cy cx h
    unfold Knob.handleTouchMove Knob.specNewValue Knob.specRoundToMultiple Knob.jsRound
    rw [specClamp_eq_clamp _ _ _ h]
  · intro dy dx
    constructor
    · intro h
      rw [Knob.touchDelta, if_pos h]
    · intro h
      rw [Knob.touchDelta, if_neg (not_lt.mpr h)]
  · norm_num
  · norm_num [Knob.handleMouseMove, Knob.jsRound, min_def, max_def]
